import Mathlib

/-!
Verification of the connection-lifecycle core (internal/interaction/ws_conn.go)
of openim-sdk-core: the reconnection protocol `ReConn`, the close operation
`CloseConn`, the outbound framing pipeline `writeBinaryMsg`, the timeout
classification helpers, and `IsInterruptReconnection`, embedded shallowly.
External collaborators (the transport, listener, command channel, encoder,
compressor) are passed in as oracles, and their interactions are recorded in
explicit traces so that ordering and counting properties can be stated.
-/

/-- Errors as produced by the Go code: a base error text, possibly wrapped with
a contextual tag. `Option GoError` models a nil-able Go `error` value. -/
inductive GoError where
  | new (s : String)
  | wrap (e : GoError) (tag : String)
deriving DecidableEq, Repr

/-- Textual description of an error, as `err.Error()` would render it: the
wrapping tag is prefixed to the inner description. -/
def GoError.errorString : GoError → String
  | .new s => s
  | .wrap e tag => tag ++ ": " ++ e.errorString

/-- Modelled from the spec: `utils.Wrap` (pkg/utils, not under src) wraps a
non-nil error with a contextual tag and returns nil for a nil error. -/
def utilsWrap (e : Option GoError) (tag : String) : Option GoError :=
  e.map (fun x => GoError.wrap x tag)

/-- Go `utils.IntToString` applied to a byte-slice length. -/
def IntToString (n : Nat) : String := toString n

/-- Modelled from the spec: `strings.Contains` on the description of a raw
transport error (substring containment). -/
def stringsContains (s sub : String) : Bool := decide (sub.data <:+: s.data)

namespace constant

/-- Modelled from the spec: login-status value `LoginSuccess` (spec name
`Connected`) of the pkg/constant package, which is not under src. -/
def LoginSuccess : Int := 101

/-- Modelled from the spec: login-status value `LoginFailed` of the
pkg/constant package, which is not under src. -/
def LoginFailed : Int := 103

/-- Modelled from the spec: login-status value `TokenFailedKickedOffline`
(spec name `KickedOffline`) of the pkg/constant package, not under src. -/
def TokenFailedKickedOffline : Int := 201

/-- Modelled from the spec: `ErrTokenExpired.ErrCode` of pkg/constant (not
under src); the spec taxonomy requires the nine codes to be distinct. -/
def ErrTokenExpired : Int := 701

/-- Modelled from the spec: `ErrTokenInvalid.ErrCode` of pkg/constant. -/
def ErrTokenInvalid : Int := 702

/-- Modelled from the spec: `ErrTokenMalformed.ErrCode` of pkg/constant. -/
def ErrTokenMalformed : Int := 703

/-- Modelled from the spec: `ErrTokenNotValidYet.ErrCode` of pkg/constant. -/
def ErrTokenNotValidYet : Int := 704

/-- Modelled from the spec: `ErrTokenUnknown.ErrCode` of pkg/constant. -/
def ErrTokenUnknown : Int := 705

/-- Modelled from the spec: `ErrTokenDifferentPlatformID.ErrCode` of
pkg/constant. -/
def ErrTokenDifferentPlatformID : Int := 706

/-- Modelled from the spec: `ErrTokenDifferentUserID.ErrCode` of
pkg/constant. -/
def ErrTokenDifferentUserID : Int := 707

/-- Modelled from the spec: `ErrTokenKicked.ErrCode` of pkg/constant. -/
def ErrTokenKicked : Int := 708

/-- Modelled from the spec: the maximum encoded frame length
`MaxTotalMsgLen` of pkg/constant (a fixed maximum frame size). -/
def MaxTotalMsgLen : Nat := 51200

/-- Modelled from the spec: sync-status flag `MsgSyncBegin` of pkg/constant. -/
def MsgSyncBegin : Int := 1001

/-- Modelled from the spec: sync-status flag `MsgSyncFailed` of
pkg/constant; distinct from `MsgSyncBegin`. -/
def MsgSyncFailed : Int := 1004

end constant

/-- Modelled from the spec: the transport handle (`LongConn` implementation,
not under src); its only behaviour visible to the claims is the error its
`Close` returns. -/
structure LongConnHandle where
  closeErr : Option GoError
deriving DecidableEq, Repr

/-- Modelled from the spec: closing a transport handle yields its close error
and leaves no live handle (the spec lifecycle rule says the handle is cleared
on final close; the `Ws` transport implementation is not under src). -/
def LongConnHandle.close (h : LongConnHandle) :
    Option LongConnHandle × Option GoError :=
  (none, h.closeErr)

/-- Lifecycle callbacks on the `OnConnListener` collaborator, recorded as a
trace in the order the Go code invokes them. -/
inductive ListenerEvent where
  | onConnecting
  | onConnectSuccess
  | onConnectFailed (code : Int) (msg : String)
  | onUserTokenExpired
deriving DecidableEq, Repr

/-- Records pushed onto the conversation command channel by
`common.TriggerCmdSuperGroupMsgCome` (sdk_struct.CmdNewMsgComeToConversation):
a message list (nil in every push this core makes, modelled as `[]`), the
operation ID, and a sync flag. -/
structure CmdNewMsgComeToConversation where
  MsgList : List Unit
  OperationID : String
  SyncFlag : Int
deriving DecidableEq, Repr

/-- State of a `WsConn` manager (the fields the claims are about).
`hasConversationCh` records whether the command channel is configured
(`u.ConversationCh != nil`). -/
structure WsConn where
  conn : Option LongConnHandle
  loginStatus : Int
  tokenErrCode : Int
  IsCompression : Bool
  hasConversationCh : Bool
deriving DecidableEq, Repr

/-- Go `WsConn.IsInterruptReconnection`: true iff `tokenErrCode != 0`. -/
def WsConn.IsInterruptReconnection (u : WsConn) : Bool :=
  if u.tokenErrCode ≠ 0 then true else false

/-- Outcome of the transport `Dial` call, supplied as an oracle: success with
a fresh live handle, failure with a server HTTP response (status code, the
`ws_err_msg` header value, and the dial error text), or failure with no
response (`httpResp == nil`). -/
inductive DialOutcome where
  | success (newConn : LongConnHandle)
  | failWithResp (statusCode : Int) (wsErrMsg : String) (errText : String)
  | failNoResp (errText : String)
deriving DecidableEq, Repr

/-- Result of one `ReConn` call: the updated state, the listener-callback
trace, the command-channel push trace, whether a dial was attempted, and the
three returned values `(shouldRetry, wasKicked, err)`. -/
structure ReConnResult where
  state : WsConn
  events : List ListenerEvent
  pushes : List CmdNewMsgComeToConversation
  dialed : Bool
  shouldRetry : Bool
  wasKicked : Bool
  err : Option GoError
deriving Repr

/-- Go `WsConn.ReConn`, translated statement by statement. `tokenErrCode` is
reset to 0 first; an existing handle is closed best-effort (spec-modelled
transport close clears it, the close error is discarded); the
`TokenFailedKickedOffline` guard aborts before `OnConnecting` and before any
dial; otherwise the dial outcome is classified exactly as the Go switch does
(the source guard error text contains an apostrophe, omitted here). -/
def WsConn.ReConn (u : WsConn) (dial : DialOutcome) (operationID : String) :
    ReConnResult :=
  let u1 : WsConn := { u with tokenErrCode := 0 }
  let u2 : WsConn :=
    match u1.conn with
    | some h => { u1 with conn := (h.close).1 }
    | none => u1
  if u2.loginStatus = constant.TokenFailedKickedOffline then
    { state := u2, events := [], pushes := [], dialed := false,
      shouldRetry := false, wasKicked := false,
      err := some (.wrap (.new "dont re conn") "TokenFailedKickedOffline") }
  else
    let ev0 : List ListenerEvent := [.onConnecting]
    match dial with
    | .success h =>
      { state := { u2 with conn := some h,
                           loginStatus := constant.LoginSuccess },
        events := ev0 ++ [.onConnectSuccess], pushes := [], dialed := true,
        shouldRetry := true, wasKicked := false, err := none }
    | .failWithResp statusCode wsErrMsg errText =>
      let u3 : WsConn := { u2 with loginStatus := constant.LoginFailed }
      let errMsg := wsErrMsg ++ " operationID " ++ operationID ++ errText
      let ev1 := ev0 ++ [.onConnectFailed statusCode errMsg]
      if statusCode = constant.ErrTokenExpired then
        { state := { u3 with tokenErrCode := constant.ErrTokenExpired },
          events := ev1 ++ [.onUserTokenExpired], pushes := [], dialed := true,
          shouldRetry := false, wasKicked := false,
          err := some (.wrap (.new errText) errMsg) }
      else if statusCode = constant.ErrTokenInvalid then
        { state := { u3 with tokenErrCode := constant.ErrTokenInvalid },
          events := ev1, pushes := [], dialed := true,
          shouldRetry := false, wasKicked := false,
          err := some (.wrap (.new errText) errMsg) }
      else if statusCode = constant.ErrTokenMalformed then
        { state := { u3 with tokenErrCode := constant.ErrTokenMalformed },
          events := ev1, pushes := [], dialed := true,
          shouldRetry := false, wasKicked := false,
          err := some (.wrap (.new errText) errMsg) }
      else if statusCode = constant.ErrTokenNotValidYet then
        { state := { u3 with tokenErrCode := constant.ErrTokenNotValidYet },
          events := ev1, pushes := [], dialed := true,
          shouldRetry := false, wasKicked := false,
          err := some (.wrap (.new errText) errMsg) }
      else if statusCode = constant.ErrTokenUnknown then
        { state := { u3 with tokenErrCode := constant.ErrTokenUnknown },
          events := ev1, pushes := [], dialed := true,
          shouldRetry := false, wasKicked := false,
          err := some (.wrap (.new errText) errMsg) }
      else if statusCode = constant.ErrTokenDifferentPlatformID then
        { state := { u3 with
                       tokenErrCode := constant.ErrTokenDifferentPlatformID },
          events := ev1, pushes := [], dialed := true,
          shouldRetry := false, wasKicked := false,
          err := some (.wrap (.new errText) errMsg) }
      else if statusCode = constant.ErrTokenDifferentUserID then
        { state := { u3 with
                       tokenErrCode := constant.ErrTokenDifferentUserID },
          events := ev1, pushes := [], dialed := true,
          shouldRetry := false, wasKicked := false,
          err := some (.wrap (.new errText) errMsg) }
      else if statusCode = constant.ErrTokenKicked then
        { state := { u3 with tokenErrCode := constant.ErrTokenKicked },
          events := ev1, pushes := [], dialed := true,
          shouldRetry := false, wasKicked := true,
          err := some (.wrap (.new errText) errMsg) }
      else
        let errMsg2 := errText ++ " operationID " ++ operationID
        { state := u3, events := ev1 ++ [.onConnectFailed 1001 errMsg2],
          pushes := [], dialed := true,
          shouldRetry := true, wasKicked := false,
          err := some (.wrap (.new errText) errMsg2) }
    | .failNoResp errText =>
      let u3 : WsConn := { u2 with loginStatus := constant.LoginFailed }
      let errMsg := errText ++ " operationID " ++ operationID
      let ev1 := ev0 ++ [.onConnectFailed 1001 errMsg]
      let pushes : List CmdNewMsgComeToConversation :=
        if u3.hasConversationCh then
          [{ MsgList := [], OperationID := operationID,
             SyncFlag := constant.MsgSyncBegin },
           { MsgList := [], OperationID := operationID,
             SyncFlag := constant.MsgSyncFailed }]
        else []
      { state := u3, events := ev1, pushes := pushes, dialed := true,
        shouldRetry := true, wasKicked := false,
        err := some (.wrap (.new errText) errMsg) }

/-- Go `WsConn.CloseConn`: under the lock, if the handle is non-nil, close it
and return the wrapped close error; otherwise return nil. The clearing of the
handle happens inside the spec-modelled transport close. -/
def WsConn.CloseConn (u : WsConn) : WsConn × Option GoError :=
  match u.conn with
  | some h => ({ u with conn := (h.close).1 }, utilsWrap (h.close).2 "")
  | none => (u, none)

/-- Result of one `writeBinaryMsg` call: the binary frames handed to the
transport `WriteMessage`, and the returned error. -/
structure WriteResult where
  frames : List (List Nat)
  err : Option GoError
deriving DecidableEq, Repr

/-- Go `WsConn.writeBinaryMsg`, with the encoder result, the compressor, the
`SetWriteTimeout` result and the `WriteMessage` result supplied as oracles
(bytes are modelled as `List Nat`): encode, then under the lock if the
handle is live arm the write deadline, reject when the encoded length
exceeds `MaxTotalMsgLen`, compress iff compression is enabled, and write one
binary frame. -/
def writeBinaryMsg (connIsNil : Bool) (isCompression : Bool)
    (encodeRes : Except GoError (List Nat))
    (compress : List Nat → Except GoError (List Nat))
    (setWriteTimeoutRes : Option GoError)
    (writeMessageRes : List Nat → Option GoError) : WriteResult :=
  match encodeRes with
  | .error e => { frames := [], err := some (.wrap e "Encode error") }
  | .ok data =>
    if !connIsNil then
      match setWriteTimeoutRes with
      | some e => { frames := [], err := some (.wrap e "SetWriteTimeout") }
      | none =>
        if data.length > constant.MaxTotalMsgLen then
          { frames := [],
            err := some (.wrap (.new "msg too long")
                          (IntToString data.length)) }
        else
          match (if isCompression then compress data else .ok data) with
          | .error e => { frames := [], err := some (.wrap e "") }
          | .ok compressData =>
            { frames := [compressData],
              err := utilsWrap (writeMessageRes compressData) "" }
    else { frames := [], err := some (.wrap (.new "conn==nil") "") }

/-- Go `WsConn.IsReadTimeout`: true iff the error description contains
"timeout". -/
def WsConn.IsReadTimeout (e : GoError) : Bool :=
  if stringsContains e.errorString "timeout" then true else false

/-- Go `WsConn.IsWriteTimeout`: true iff the error description contains
"timeout". -/
def WsConn.IsWriteTimeout (e : GoError) : Bool :=
  if stringsContains e.errorString "timeout" then true else false

/-- Go `WsConn.IsFatalError`: false iff the error description contains
"timeout". -/
def WsConn.IsFatalError (e : GoError) : Bool :=
  if stringsContains e.errorString "timeout" then false else true

/-- C8: for every error value, IsReadTimeout and IsWriteTimeout return true
iff the description contains the timeout marker, IsFatalError returns true
iff it does not, hence IsReadTimeout = IsWriteTimeout and IsFatalError is the
negation of IsReadTimeout. -/
theorem timeout_predicates_classification (e : GoError) :
    WsConn.IsReadTimeout e = stringsContains e.errorString "timeout" ∧
    WsConn.IsWriteTimeout e = WsConn.IsReadTimeout e ∧
    WsConn.IsFatalError e = !WsConn.IsReadTimeout e := by
  unfold WsConn.IsReadTimeout WsConn.IsWriteTimeout WsConn.IsFatalError
  rcases h : stringsContains e.errorString "timeout" <;> simp [h]

/-- C5: CloseConn closes an existing handle and surfaces its (possibly nil)
close error wrapped, leaves no handle afterwards, returns nil when no handle
exists, and never touches loginStatus (the resulting state is the input state
with the handle cleared, in both cases). -/
theorem closeConn_spec (u : WsConn) :
    u.CloseConn =
      ({ u with conn := none },
       match u.conn with
       | some h => utilsWrap h.closeErr ""
       | none => none) := by
  obtain ⟨conn, ls, tec, ic, ch⟩ := u
  cases conn <;> simp [WsConn.CloseConn, LongConnHandle.close]

/-- C6: a send whose encoded length exceeds MaxTotalMsgLen, on a connected
manager with the write deadline armed successfully, returns the oversized
error carrying the actual encoded length and writes no frame. -/
theorem writeBinaryMsg_oversized (isCompression : Bool) (data : List Nat)
    (compress : List Nat → Except GoError (List Nat))
    (writeMessageRes : List Nat → Option GoError)
    (hlen : data.length > constant.MaxTotalMsgLen) :
    writeBinaryMsg false isCompression (.ok data) compress none
        writeMessageRes =
      { frames := [],
        err := some (.wrap (.new "msg too long") (IntToString data.length)) }
    := by
  simp [writeBinaryMsg, hlen]

/-- C6 witness: a 51201-byte encoding exceeds the 51200 maximum; the call
returns the oversized error and writes nothing. -/
theorem writeBinaryMsg_oversized_witness :
    (List.replicate 51201 (0 : Nat)).length > constant.MaxTotalMsgLen ∧
    writeBinaryMsg false false (.ok (List.replicate 51201 (0 : Nat)))
        (fun d => .ok d) none (fun _ => none) =
      { frames := [],
        err := some (.wrap (.new "msg too long")
                 (IntToString (List.replicate 51201 (0 : Nat)).length)) } :=
  ⟨by rw [List.length_replicate, show constant.MaxTotalMsgLen = 51200 from
      rfl]; omega,
   writeBinaryMsg_oversized false (List.replicate 51201 0) (fun d => .ok d)
     (fun _ => none)
     (by rw [List.length_replicate, show constant.MaxTotalMsgLen = 51200 from
        rfl]; omega)⟩

/-- C7: a successful send writes the single frame compress(encode(request))
with compression enabled and encode(request) with it disabled; the oversized
check is applied to the length of encode(request) in both compression modes
(same oversized error, no frame, whatever the compressor would return). -/
theorem writeBinaryMsg_frame_payload (data cd : List Nat)
    (compress : List Nat → Except GoError (List Nat))
    (writeMessageRes : List Nat → Option GoError)
    (hc : compress data = .ok cd) :
    (data.length ≤ constant.MaxTotalMsgLen →
      (writeBinaryMsg false true (.ok data) compress none
          writeMessageRes).frames = [cd] ∧
      (writeBinaryMsg false false (.ok data) compress none
          writeMessageRes).frames = [data]) ∧
    (data.length > constant.MaxTotalMsgLen → ∀ b : Bool,
      writeBinaryMsg false b (.ok data) compress none writeMessageRes =
        { frames := [],
          err := some (.wrap (.new "msg too long")
                        (IntToString data.length)) }) := by
  constructor
  · intro hle
    constructor <;> simp [writeBinaryMsg, Nat.not_lt.mpr hle, hc]
  · intro hgt b
    simp [writeBinaryMsg, hgt]

/-- C7 witness: with a one-byte encoding and a compressor returning [1, 2],
the frame is [1, 2] with compression on and [0] with compression off. -/
theorem writeBinaryMsg_frame_payload_witness :
    (writeBinaryMsg false true (.ok [0]) (fun _ => .ok [1, 2]) none
        (fun _ => none)).frames = [[1, 2]] ∧
    (writeBinaryMsg false false (.ok [0]) (fun _ => .ok [1, 2]) none
        (fun _ => none)).frames = [[0]] :=
  (writeBinaryMsg_frame_payload [0] [1, 2] (fun _ => .ok [1, 2])
    (fun _ => none) rfl).1 (by decide)

/-- C2: a ReConn call made while loginStatus is TokenFailedKickedOffline
returns (false, false, non-nil error) without invoking any listener callback
(in particular OnConnecting) and without attempting a dial. -/
theorem reConn_kickedOffline_guard (u : WsConn) (dial : DialOutcome)
    (opID : String)
    (h : u.loginStatus = constant.TokenFailedKickedOffline) :
    (u.ReConn dial opID).shouldRetry = false ∧
    (u.ReConn dial opID).wasKicked = false ∧
    (u.ReConn dial opID).err.isSome = true ∧
    (u.ReConn dial opID).events = [] ∧
    (u.ReConn dial opID).dialed = false := by
  obtain ⟨conn, ls, tec, ic, ch⟩ := u
  subst h
  cases conn <;> simp [WsConn.ReConn]

/-- C2 witness: a kicked-offline manager aborts a reconnect attempt with no
callbacks and no dial, at a concrete state. -/
theorem reConn_kickedOffline_guard_witness :
    (((⟨none, constant.TokenFailedKickedOffline, 0, false, true⟩ :
        WsConn).ReConn (.failNoResp "e") "op").shouldRetry = false ∧
     ((⟨none, constant.TokenFailedKickedOffline, 0, false, true⟩ :
        WsConn).ReConn (.failNoResp "e") "op").wasKicked = false ∧
     ((⟨none, constant.TokenFailedKickedOffline, 0, false, true⟩ :
        WsConn).ReConn (.failNoResp "e") "op").err.isSome = true ∧
     ((⟨none, constant.TokenFailedKickedOffline, 0, false, true⟩ :
        WsConn).ReConn (.failNoResp "e") "op").events = [] ∧
     ((⟨none, constant.TokenFailedKickedOffline, 0, false, true⟩ :
        WsConn).ReConn (.failNoResp "e") "op").dialed = false) :=
  reConn_kickedOffline_guard
    ⟨none, constant.TokenFailedKickedOffline, 0, false, true⟩
    (.failNoResp "e") "op" rfl

/-- C10: on the kicked-offline abort path, tokenErrCode has already been
reset, so IsInterruptReconnection is false on the resulting state even
though the call told the caller not to retry. -/
theorem reConn_kickedOffline_resets_tokenErrCode (u : WsConn)
    (dial : DialOutcome) (opID : String)
    (h : u.loginStatus = constant.TokenFailedKickedOffline) :
    (u.ReConn dial opID).state.tokenErrCode = 0 ∧
    (u.ReConn dial opID).state.IsInterruptReconnection = false ∧
    (u.ReConn dial opID).shouldRetry = false ∧
    (u.ReConn dial opID).err.isSome = true := by
  obtain ⟨conn, ls, tec, ic, ch⟩ := u
  subst h
  cases conn <;> simp [WsConn.ReConn, WsConn.IsInterruptReconnection]

/-- C10 witness: a kicked-offline manager with a previously recorded token
error code ends the aborted call with tokenErrCode 0 and
IsInterruptReconnection false. -/
theorem reConn_kickedOffline_resets_tokenErrCode_witness :
    (((⟨none, constant.TokenFailedKickedOffline, constant.ErrTokenExpired,
        false, true⟩ : WsConn).ReConn (.failNoResp "e")
        "op").state.tokenErrCode = 0 ∧
     ((⟨none, constant.TokenFailedKickedOffline, constant.ErrTokenExpired,
        false, true⟩ : WsConn).ReConn (.failNoResp "e")
        "op").state.IsInterruptReconnection = false ∧
     ((⟨none, constant.TokenFailedKickedOffline, constant.ErrTokenExpired,
        false, true⟩ : WsConn).ReConn (.failNoResp "e")
        "op").shouldRetry = false ∧
     ((⟨none, constant.TokenFailedKickedOffline, constant.ErrTokenExpired,
        false, true⟩ : WsConn).ReConn (.failNoResp "e")
        "op").err.isSome = true) :=
  reConn_kickedOffline_resets_tokenErrCode
    ⟨none, constant.TokenFailedKickedOffline, constant.ErrTokenExpired,
     false, true⟩ (.failNoResp "e") "op" rfl

/-- C4: a ReConn call whose dial succeeds returns (true, false, nil),
notifies OnConnecting then OnConnectSuccess, sets loginStatus to
LoginSuccess, and ends with tokenErrCode 0 regardless of any previously
recorded token-failure code. -/
theorem reConn_success_spec (u : WsConn) (h : LongConnHandle) (opID : String)
    (hks : u.loginStatus ≠ constant.TokenFailedKickedOffline) :
    (u.ReConn (.success h) opID).shouldRetry = true ∧
    (u.ReConn (.success h) opID).wasKicked = false ∧
    (u.ReConn (.success h) opID).err = none ∧
    (u.ReConn (.success h) opID).events =
      [.onConnecting, .onConnectSuccess] ∧
    (u.ReConn (.success h) opID).state.loginStatus = constant.LoginSuccess ∧
    (u.ReConn (.success h) opID).state.tokenErrCode = 0 := by
  obtain ⟨conn, ls, tec, ic, ch⟩ := u
  cases conn <;> simp [WsConn.ReConn, hks]

/-- C4 witness: a manager that had recorded the expired-token code and then
dials successfully ends Connected with tokenErrCode 0. -/
theorem reConn_success_spec_witness :
    (((⟨some ⟨none⟩, constant.LoginFailed, constant.ErrTokenExpired, true,
        true⟩ : WsConn).ReConn (.success ⟨none⟩) "op").shouldRetry = true ∧
     ((⟨some ⟨none⟩, constant.LoginFailed, constant.ErrTokenExpired, true,
        true⟩ : WsConn).ReConn (.success ⟨none⟩) "op").wasKicked = false ∧
     ((⟨some ⟨none⟩, constant.LoginFailed, constant.ErrTokenExpired, true,
        true⟩ : WsConn).ReConn (.success ⟨none⟩) "op").err = none ∧
     ((⟨some ⟨none⟩, constant.LoginFailed, constant.ErrTokenExpired, true,
        true⟩ : WsConn).ReConn (.success ⟨none⟩) "op").events =
       [.onConnecting, .onConnectSuccess] ∧
     ((⟨some ⟨none⟩, constant.LoginFailed, constant.ErrTokenExpired, true,
        true⟩ : WsConn).ReConn (.success ⟨none⟩) "op").state.loginStatus =
       constant.LoginSuccess ∧
     ((⟨some ⟨none⟩, constant.LoginFailed, constant.ErrTokenExpired, true,
        true⟩ : WsConn).ReConn (.success ⟨none⟩) "op").state.tokenErrCode
       = 0) :=
  reConn_success_spec
    ⟨some ⟨none⟩, constant.LoginFailed, constant.ErrTokenExpired, true, true⟩
    ⟨none⟩ "op" (by decide)

/-- C3: the command-channel pushes of a ReConn call, on every path: exactly
the pair SyncBegin then SyncFailed, with the same operation ID and empty
message lists, when the dial fails with no server response and the channel
is configured; the empty trace on every other path (success, any
server-responded failure, kicked-offline abort, or no channel). -/
theorem reConn_pushes_characterization (u : WsConn) (dial : DialOutcome)
    (opID : String) :
    (u.ReConn dial opID).pushes =
      (if u.loginStatus = constant.TokenFailedKickedOffline then []
       else
        match dial with
        | .failNoResp _ =>
          if u.hasConversationCh then
            [{ MsgList := [], OperationID := opID,
               SyncFlag := constant.MsgSyncBegin },
             { MsgList := [], OperationID := opID,
               SyncFlag := constant.MsgSyncFailed }]
          else []
        | _ => []) := by
  obtain ⟨conn, ls, tec, ic, ch⟩ := u
  by_cases hks : ls = constant.TokenFailedKickedOffline <;>
    cases conn <;> cases dial <;>
    simp [WsConn.ReConn, hks, apply_ite ReConnResult.pushes]

/-- C1: classification of a server-responded dial failure. For each of the
seven non-Kicked authentication-failure codes the call returns (false,
false, non-nil error), records that code in tokenErrCode, and notifies
OnUserTokenExpired exactly when the code is Expired; for the Kicked code it
records Kicked and returns (false, true, non-nil error) with no
OnUserTokenExpired. -/
theorem reConn_token_failure_classification (u : WsConn) (code : Int)
    (wsErrMsg errText opID : String)
    (hks : u.loginStatus ≠ constant.TokenFailedKickedOffline) :
    (code ∈ [constant.ErrTokenExpired, constant.ErrTokenInvalid,
             constant.ErrTokenMalformed, constant.ErrTokenNotValidYet,
             constant.ErrTokenUnknown, constant.ErrTokenDifferentPlatformID,
             constant.ErrTokenDifferentUserID] →
      (u.ReConn (.failWithResp code wsErrMsg errText) opID).shouldRetry
          = false ∧
      (u.ReConn (.failWithResp code wsErrMsg errText) opID).wasKicked
          = false ∧
      (u.ReConn (.failWithResp code wsErrMsg errText) opID).err.isSome
          = true ∧
      (u.ReConn (.failWithResp code wsErrMsg errText)
          opID).state.tokenErrCode = code ∧
      (ListenerEvent.onUserTokenExpired ∈
          (u.ReConn (.failWithResp code wsErrMsg errText) opID).events ↔
        code = constant.ErrTokenExpired)) ∧
    (code = constant.ErrTokenKicked →
      (u.ReConn (.failWithResp code wsErrMsg errText) opID).shouldRetry
          = false ∧
      (u.ReConn (.failWithResp code wsErrMsg errText) opID).wasKicked
          = true ∧
      (u.ReConn (.failWithResp code wsErrMsg errText) opID).err.isSome
          = true ∧
      (u.ReConn (.failWithResp code wsErrMsg errText)
          opID).state.tokenErrCode = constant.ErrTokenKicked ∧
      ListenerEvent.onUserTokenExpired ∉
        (u.ReConn (.failWithResp code wsErrMsg errText) opID).events) := by
  obtain ⟨conn, ls, tec, ic, ch⟩ := u
  constructor
  · intro hmem
    simp only [List.mem_cons, List.not_mem_nil, or_false] at hmem
    rcases hmem with rfl | rfl | rfl | rfl | rfl | rfl | rfl <;>
      cases conn <;>
      simp [WsConn.ReConn, hks, constant.ErrTokenExpired,
        constant.ErrTokenInvalid, constant.ErrTokenMalformed,
        constant.ErrTokenNotValidYet, constant.ErrTokenUnknown,
        constant.ErrTokenDifferentPlatformID,
        constant.ErrTokenDifferentUserID, constant.ErrTokenKicked]
  · intro hk
    subst hk
    cases conn <;>
      simp [WsConn.ReConn, hks, constant.ErrTokenExpired,
        constant.ErrTokenInvalid, constant.ErrTokenMalformed,
        constant.ErrTokenNotValidYet, constant.ErrTokenUnknown,
        constant.ErrTokenDifferentPlatformID,
        constant.ErrTokenDifferentUserID, constant.ErrTokenKicked]

/-- C1 witness: the Expired code at a concrete state records the expired
code, returns (false, false, non-nil), and notifies OnUserTokenExpired. -/
theorem reConn_token_failure_classification_witness :
    (((⟨none, 0, 0, false, false⟩ : WsConn).ReConn
        (.failWithResp constant.ErrTokenExpired "m" "e") "op").shouldRetry
        = false ∧
     ((⟨none, 0, 0, false, false⟩ : WsConn).ReConn
        (.failWithResp constant.ErrTokenExpired "m" "e") "op").wasKicked
        = false ∧
     ((⟨none, 0, 0, false, false⟩ : WsConn).ReConn
        (.failWithResp constant.ErrTokenExpired "m" "e") "op").err.isSome
        = true ∧
     ((⟨none, 0, 0, false, false⟩ : WsConn).ReConn
        (.failWithResp constant.ErrTokenExpired "m" "e")
        "op").state.tokenErrCode = constant.ErrTokenExpired ∧
     (ListenerEvent.onUserTokenExpired ∈
        ((⟨none, 0, 0, false, false⟩ : WsConn).ReConn
          (.failWithResp constant.ErrTokenExpired "m" "e") "op").events ↔
       constant.ErrTokenExpired = constant.ErrTokenExpired)) :=
  (reConn_token_failure_classification ⟨none, 0, 0, false, false⟩
    constant.ErrTokenExpired "m" "e" "op" (by decide)).1 (by decide)

/-- C9: a server-responded dial failure with an unrecognized status code
invokes OnConnectFailed twice in order — first with the actual status code
and the diagnostic message, then with 1001 — and returns (true, false,
non-nil error). -/
theorem reConn_unknown_status_double_failure (u : WsConn) (code : Int)
    (wsErrMsg errText opID : String)
    (hks : u.loginStatus ≠ constant.TokenFailedKickedOffline)
    (hcode : code ∉ [constant.ErrTokenExpired, constant.ErrTokenInvalid,
             constant.ErrTokenMalformed, constant.ErrTokenNotValidYet,
             constant.ErrTokenUnknown, constant.ErrTokenDifferentPlatformID,
             constant.ErrTokenDifferentUserID, constant.ErrTokenKicked]) :
    (u.ReConn (.failWithResp code wsErrMsg errText) opID).events =
      [.onConnecting,
       .onConnectFailed code
         (wsErrMsg ++ " operationID " ++ opID ++ errText),
       .onConnectFailed 1001 (errText ++ " operationID " ++ opID)] ∧
    (u.ReConn (.failWithResp code wsErrMsg errText) opID).shouldRetry
        = true ∧
    (u.ReConn (.failWithResp code wsErrMsg errText) opID).wasKicked
        = false ∧
    (u.ReConn (.failWithResp code wsErrMsg errText) opID).err.isSome
        = true := by
  obtain ⟨conn, ls, tec, ic, ch⟩ := u
  simp only [List.mem_cons, List.not_mem_nil, or_false, not_or] at hcode
  obtain ⟨h1, h2, h3, h4, h5, h6, h7, h8⟩ := hcode
  cases conn <;>
    simp [WsConn.ReConn, hks, h1, h2, h3, h4, h5, h6, h7, h8]

/-- C9 witness: status code 500 at a concrete state produces the two
OnConnectFailed notifications in order and a retryable failure. -/
theorem reConn_unknown_status_double_failure_witness :
    (((⟨none, 0, 0, false, false⟩ : WsConn).ReConn
        (.failWithResp 500 "m" "e") "op").events =
      [.onConnecting,
       .onConnectFailed 500 ("m" ++ " operationID " ++ "op" ++ "e"),
       .onConnectFailed 1001 ("e" ++ " operationID " ++ "op")] ∧
     ((⟨none, 0, 0, false, false⟩ : WsConn).ReConn
        (.failWithResp 500 "m" "e") "op").shouldRetry = true ∧
     ((⟨none, 0, 0, false, false⟩ : WsConn).ReConn
        (.failWithResp 500 "m" "e") "op").wasKicked = false ∧
     ((⟨none, 0, 0, false, false⟩ : WsConn).ReConn
        (.failWithResp 500 "m" "e") "op").err.isSome = true) :=
  reConn_unknown_status_double_failure ⟨none, 0, 0, false, false⟩ 500
    "m" "e" "op" (by decide) (by decide)
